import Mathlib

/-!
# Verification of the Sensecomfort dashboard client and its serving core

Shallow embedding of `src/frontend/dashboard.js` (the polling dashboard
client) together with a spec-modelled serving core (ingestion / history /
snapshot publication, whose implementation is not part of the repository
sources; only the spec describes it).

Conventions of the embedding:
* JavaScript numbers that the code compares and rounds are modelled as
  exact rationals (`ℚ`), with `NaN` and the two infinities as explicit
  constructors, because `Number(data.probability)` can produce any of them.
* A JS field that the code only tests for `null`/`undefined` and then
  stringifies is modelled by the observations the code makes of it
  (an `Option String` carrying its `String(...)` image, say).
* DOM elements are modelled as the fields of a `Dom` record; `innerText`
  assignment is a field update.  `toLocaleString` of a valid `Date` is
  locale-dependent, so it is a parameter `fmt : Int → String` (milliseconds
  since epoch to display string); an invalid `Date` always prints
  `"Invalid Date"` (ECMA-402), independent of locale.
-/

namespace Sensecomfort

/-- Result of coercing a JS value with `Number(...)`: NaN, ±Infinity, or a
finite number (modelled exactly as a rational). -/
inductive JSNum where
  | nan : JSNum
  | posInf : JSNum
  | negInf : JSNum
  | fin (q : ℚ) : JSNum
deriving DecidableEq, Repr

/-- `x >= c` in JS for `x` a number and `c` a finite constant:
`NaN >= c` is false, `Infinity >= c` is true, `-Infinity >= c` is false. -/
def JSNum.ge (x : JSNum) (c : ℚ) : Bool :=
  match x with
  | .nan => false
  | .posInf => true
  | .negInf => false
  | .fin q => decide (c ≤ q)

/-- `Math.round` on a finite JS number: ties round toward +∞. -/
def jsRound (q : ℚ) : Int := Int.floor (q + 1/2)

/-- The `data.probability` field as the code observes it: either nullish
(`undefined` / `null`, the two cases `data.probability != null` rules out)
or a value `v` remembered through `Number(v)`. -/
inductive ProbField where
  | absent : ProbField
  | pnull : ProbField
  | pval (n : JSNum) : ProbField
deriving DecidableEq, Repr

/-- The `data.days_left` field: `undefined`, `null`, or a value remembered
through its template-literal stringification `${data.days_left}`. -/
inductive DaysField where
  | absent : DaysField
  | dnull : DaysField
  | dval (s : String) : DaysField
deriving DecidableEq, Repr

/-- The `h.timestamp` field of a history entry, as `new Date(h.timestamp)`
sees it: `undefined` gives an invalid Date; `null` coerces to epoch 0; any
other value either parses to a millisecond instant or gives an invalid
Date. -/
inductive TimeField where
  | undef : TimeField
  | tnull : TimeField
  | parsed (ms : Int) : TimeField
  | unparseable : TimeField
deriving DecidableEq, Repr

/-- One entry of `data.history`.  `resistance` is `none` when the field is
`undefined` or `null`, otherwise `some` of its `String(h.resistance)`
image (the only observation the code makes of it). -/
structure HistEntry where
  timestamp : TimeField
  resistance : Option String
deriving DecidableEq, Repr

/-- The parsed JSON body, restricted to the fields `updateUI` reads.
`status` is `none` when nullish (then `??` substitutes the em dash),
otherwise the displayed text; `history` is `none` when the field is not an
array (`Array.isArray` fails). -/
structure RespData where
  probability : ProbField
  status : Option String
  days_left : DaysField
  history : Option (List HistEntry)
deriving DecidableEq, Repr

/-- One rendered `reading-item`: the `reading-time` text and, when present,
the `reading-value` text (the "No readings yet" placeholder item has no
value line). -/
structure Item where
  time : String
  value : Option String
deriving DecidableEq, Repr

/-- The dashboard DOM as the script mutates it: `probText`, `statusText`,
`daysText`, the conic-gradient angle of `probCircle` (degrees, a JS
number), the `readingsList` children, and the container visibility. -/
structure Dom where
  probText : String
  statusText : String
  daysText : String
  ringDeg : JSNum
  readingsList : List Item
  containerVisible : Bool
deriving DecidableEq, Repr

/-- `new Date(h.timestamp).toLocaleString()`, which never throws: an
invalid Date prints `"Invalid Date"`; `null` coerces to the epoch.  The
`catch` branch of the source (`t = String(h.timestamp || '--')`) is
therefore unreachable. -/
def renderTime (fmt : Int → String) : TimeField → String
  | .undef => "Invalid Date"
  | .tnull => fmt 0
  | .parsed ms => fmt ms
  | .unparseable => "Invalid Date"

/-- The per-entry body of the readings loop in `updateUI`
(`dashboard.js` lines 148–164). -/
def renderItem (fmt : Int → String) (h : HistEntry) : Item :=
  { time := renderTime fmt h.timestamp
    value := some (h.resistance.getD "--") }

/-- The placeholder item rendered when there is no history. -/
def noReadingsItem : Item := { time := "No readings yet", value := none }

/-- The readings list computed by `updateUI` (lines 137–166): coerce a
non-array to `[]`, copy and **reverse**, then either the placeholder or
the first 12 entries of the reversed list. -/
def renderList (fmt : Int → String) (history : Option (List HistEntry)) :
    List Item :=
  let hist := (history.getD []).reverse
  if hist.isEmpty then [noReadingsItem]
  else (hist.take 12).map (renderItem fmt)

/-- `rawProb` (lines 107–109): `null` unless `data.probability` is
non-nullish and `Number(data.probability)` is not NaN. -/
def rawProb : ProbField → Option JSNum
  | .absent => none
  | .pnull => none
  | .pval .nan => none
  | .pval n => some n

/-- `percent = Math.round(rawProb * 100)` (line 111), kept as a JS
number (`Infinity * 100 = Infinity`; the NaN case cannot arise from
`rawProb` but keeps the function total, as `Math.round(NaN) = NaN`). -/
def percentOf : JSNum → JSNum
  | .nan => .nan
  | .posInf => .posInf
  | .negInf => .negInf
  | .fin q => .fin (jsRound (q * 100) : Int)

/-- `percent + '%'`: JS number-to-string for the values `percentOf` can
produce (an integer-valued rational, NaN, or ±Infinity). -/
def showPercent : JSNum → String
  | .nan => "NaN%"
  | .posInf => "Infinity%"
  | .negInf => "-Infinity%"
  | .fin q => toString q.num ++ "%"

/-- `Math.min(100, Math.max(0, percent)) * 3.6` (line 131), with NaN
propagation as in JS `Math.min`/`Math.max`. -/
def ringDegOf : Option JSNum → JSNum
  | none => .fin 0
  | some .nan => .nan
  | some .posInf => .fin 360
  | some .negInf => .fin 0
  | some (.fin q) => .fin (min 100 (max 0 q) * (36/10))

/-- The days-left display (lines 117–126): a non-nullish server
`days_left` wins; otherwise band inference from `rawProb`; otherwise the
`'-- days'` placeholder. -/
def daysDisplay (d : RespData) : String :=
  match d.days_left with
  | .dval s => s ++ " days"
  | _ =>
    match rawProb d.probability with
    | some n =>
      if n.ge (95/100) then "0 days"
      else if n.ge (75/100) then "1 day"
      else if n.ge (60/100) then "2 days"
      else if n.ge (40/100) then "3 days"
      else "-- days"
    | none => "-- days"

/-- `showWaiting` (lines 68–82): overwrites the three texts and the
readings list, leaves the ring and the container visibility alone. -/
def showWaiting (dom : Dom) : Dom :=
  { dom with
    probText := "--%"
    statusText := "Waiting for sensor..."
    daysText := "-- days"
    readingsList := [noReadingsItem] }

/-- `showError` (lines 84–88): overwrites only `statusText`. -/
def showError (msg : String) (dom : Dom) : Dom :=
  { dom with statusText := msg }

/-- `updateUI` (lines 91–173).  `none` models a falsy or non-object
argument (the guard at line 92 falls back to `showWaiting`);
`rv` is the `readingsVisible` global. -/
def updateUI (fmt : Int → String) (rv : Bool) (d : Option RespData)
    (dom : Dom) : Dom :=
  match d with
  | none => showWaiting dom
  | some data =>
    let percent := (rawProb data.probability).map percentOf
    { probText := match percent with
        | none => "--%"
        | some n => showPercent n
      statusText := data.status.getD "—"
      daysText := daysDisplay data
      ringDeg := ringDegOf percent
      readingsList := renderList fmt data.history
      containerVisible := rv }

/-- The client-side mutable state: the `lastData` global (outer `none` =
never assigned; the inner `Option` is the parsed body, `none` when it is
not an object) and the DOM. -/
structure ClientState where
  lastData : Option (Option RespData)
  dom : Dom
deriving DecidableEq, Repr

/-- What one round of `fetchLatest` can observe of the network:
a 204 response, a non-OK status, a thrown fetch / JSON-parse exception,
or an OK response whose body parsed to `d`. -/
inductive FetchOutcome where
  | noContent : FetchOutcome
  | httpError (status : Nat) : FetchOutcome
  | netFail : FetchOutcome
  | success (d : Option RespData) : FetchOutcome
deriving DecidableEq, Repr

/-- `fetchLatest` (lines 45–65) as a state transformer over one observed
outcome.  Only the success path assigns `lastData`. -/
def fetchLatest (fmt : Int → String) (rv : Bool) (o : FetchOutcome)
    (st : ClientState) : ClientState :=
  match o with
  | .noContent => { st with dom := showWaiting st.dom }
  | .httpError s =>
      { st with dom := showError ("Server " ++ toString s) st.dom }
  | .netFail => { st with dom := showError "Server unreachable" st.dom }
  | .success d => { lastData := some d, dom := updateUI fmt rv d st.dom }

/-! ## Spec-modelled serving core

The ingestion / history / snapshot-publication backend is not among the
repository sources (only the dashboard client is); the definitions below
model it from the spec (§3–§4.6) so that the claims about `getLatest` and
snapshot atomicity can be settled. -/

/-- Modelled from the spec: retention cap on stored history (§3, scenario
3 fixes it to 12). -/
def N_MAX : Nat := 12

/-- Modelled from the spec: cap on history exposed per Snapshot (§3);
the client likewise caps at 12. -/
def N_VISIBLE : Nat := 12

/-- Modelled from the spec: a Reading enriched with derived
probability / status / days_left (§3 «ClassifiedReading»). -/
structure ClassifiedReading where
  resistance : ℚ
  timestamp : Nat
  probability : ℚ
  status : String
  days_left : Option Nat
deriving DecidableEq, Repr

/-- Modelled from the spec: the Classifier band table (§4.2), ties to the
higher-urgency band (`>=`, not `>`). -/
def classify (p : ℚ) : String × Option Nat :=
  if 95/100 ≤ p then ("Detected", some 0)
  else if 75/100 ≤ p then ("Approaching", some 1)
  else if 60/100 ≤ p then ("Approaching", some 2)
  else if 40/100 ≤ p then ("Approaching", some 3)
  else ("Normal", none)

/-- Modelled from the spec: the externally visible immutable view (§3
«Snapshot»), history most-recent-first, capped to `N_VISIBLE`. -/
structure Snapshot where
  probability : ℚ
  status : String
  days_left : Option Nat
  history : List ClassifiedReading
deriving DecidableEq, Repr

/-- Modelled from the spec: the Snapshot Builder (§4.4), pure composition
of the classified reading and a capped window of history. -/
def build (cr : ClassifiedReading) (hist : List ClassifiedReading) :
    Snapshot :=
  { probability := cr.probability
    status := cr.status
    days_left := cr.days_left
    history := hist.take N_VISIBLE }

/-- Modelled from the spec: the process-wide state cell (§5): the bounded
History (most-recent-first) plus the current published Snapshot
(`none` before the first ingestion). -/
structure ServerState where
  history : List ClassifiedReading
  current : Option Snapshot
deriving DecidableEq, Repr

/-- Modelled from the spec: the state at service start, before any
ingestion. -/
def initServer : ServerState := { history := [], current := none }

/-- Modelled from the spec: the Ingestion Endpoint success path (§4.5):
infer, classify, append (capped to `N_MAX`), build, and atomically
publish — one atomic step of the state machine. -/
def ingest (infer : ℚ → ℚ) (resistance : ℚ) (t : Nat)
    (s : ServerState) : ServerState :=
  let p := infer resistance
  let cd := classify p
  let cr : ClassifiedReading :=
    { resistance := resistance, timestamp := t, probability := p
      status := cd.1, days_left := cd.2 }
  let hist := (cr :: s.history).take N_MAX
  { history := hist, current := some (build cr hist) }

/-- Modelled from the spec: the Query Endpoint (§4.6): returns the current
published Snapshot (or `NoData` as `none`) and leaves the state
untouched. -/
def getLatest (s : ServerState) : Option Snapshot × ServerState :=
  (s.current, s)

/-- An atomic operation of the serving core: one ingestion or one query.
Arbitrary interleavings of concurrent calls are arbitrary lists of these
steps, since the spec makes each publication and each read atomic. -/
inductive ServerOp where
  | ingest (resistance : ℚ) (t : Nat) : ServerOp
  | query : ServerOp
deriving DecidableEq, Repr

/-- Run a sequence of interleaved operations from a given state. -/
def runOps (infer : ℚ → ℚ) : List ServerOp → ServerState → ServerState
  | [], s => s
  | .ingest r t :: ops, s => runOps infer ops (ingest infer r t s)
  | .query :: ops, s => runOps infer ops (getLatest s).2

/-- A snapshot is self-consistent when its scalar fields agree with the
ClassifiedReading at the head of its own history (§4.4 guarantee). -/
def selfConsistent (snap : Snapshot) : Prop :=
  ∃ cr, snap.history.head? = some cr ∧
    cr.probability = snap.probability ∧
    cr.status = snap.status ∧
    cr.days_left = snap.days_left

/-- Invariant carried by the serving state machine: every published
snapshot is self-consistent. -/
def serverInv (s : ServerState) : Prop :=
  ∀ snap, s.current = some snap → selfConsistent snap

lemma head?_take_cons {α : Type} (a : α) (l : List α) (n : Nat)
    (h : 0 < n) : ((a :: l).take n).head? = some a := by
  cases n with
  | zero => omega
  | succ m => simp

lemma ingest_selfConsistent (infer : ℚ → ℚ) (r : ℚ) (t : Nat)
    (s : ServerState) : serverInv (ingest infer r t s) := by
  intro snap hsnap
  simp only [ingest, build, Option.some.injEq] at hsnap
  subst hsnap
  refine ⟨⟨r, t, infer r, (classify (infer r)).1, (classify (infer r)).2⟩,
    ?_, rfl, rfl, rfl⟩
  rw [List.take_take]
  exact head?_take_cons _ _ _ (by decide)

lemma runOps_preserves_inv (infer : ℚ → ℚ) (ops : List ServerOp) :
    ∀ s : ServerState, serverInv s → serverInv (runOps infer ops s) := by
  induction ops with
  | nil => intro s hs; exact hs
  | cons op ops ih =>
    intro s hs
    cases op with
    | ingest r t => exact ih _ (ingest_selfConsistent infer r t s)
    | query => exact ih _ hs

/-! ## Concrete fixtures used by witnesses and counterexamples -/

/-- A concrete locale formatter for witnesses: milliseconds prefixed by
`@`. -/
def fmtMs (ms : Int) : String := "@" ++ toString ms

/-- A concrete starting DOM. -/
def dom0 : Dom :=
  { probText := "", statusText := "", daysText := "", ringDeg := .fin 0
    readingsList := [], containerVisible := true }

/-- A concrete starting client state (page just loaded). -/
def state0 : ClientState := { lastData := none, dom := dom0 }

/-- A response with probability 0.8 and no `days_left`. -/
def probeBand : RespData :=
  { probability := .pval (.fin (4/5)), status := some "Approaching"
    days_left := .absent, history := some [] }

/-- A response with a server-provided `days_left` of `4` and a
probability (0.2) whose band inference would disagree. -/
def probeServerDays : RespData :=
  { probability := .pval (.fin (1/5)), status := some "Normal"
    days_left := .dval "4", history := some [] }

/-! ## Claim theorems -/

/-- C1: when `days_left` is absent (null or undefined) and the probability
parses to a finite number `p`, the displayed days-left estimate follows
the fixed threshold bands with closed lower bounds: `p ≥ 0.95` shows
`0 days`, `0.75 ≤ p < 0.95` shows `1 day`, `0.60 ≤ p < 0.75` shows
`2 days`, `0.40 ≤ p < 0.60` shows `3 days`, and `p < 0.40` leaves the
`-- days` placeholder (never a sentinel number). -/
theorem band_inference_when_days_absent (fmt : Int → String) (rv : Bool)
    (dom : Dom) (d : RespData) (p : ℚ)
    (hdl : d.days_left = .absent ∨ d.days_left = .dnull)
    (hp : rawProb d.probability = some (.fin p)) :
    (95/100 ≤ p → (updateUI fmt rv (some d) dom).daysText = "0 days") ∧
    (75/100 ≤ p ∧ p < 95/100 →
      (updateUI fmt rv (some d) dom).daysText = "1 day") ∧
    (60/100 ≤ p ∧ p < 75/100 →
      (updateUI fmt rv (some d) dom).daysText = "2 days") ∧
    (40/100 ≤ p ∧ p < 60/100 →
      (updateUI fmt rv (some d) dom).daysText = "3 days") ∧
    (p < 40/100 → (updateUI fmt rv (some d) dom).daysText = "-- days") := by
  have hdt : (updateUI fmt rv (some d) dom).daysText = daysDisplay d := rfl
  have h1 : daysDisplay d =
      (if JSNum.ge (.fin p) (95/100) then "0 days"
       else if JSNum.ge (.fin p) (75/100) then "1 day"
       else if JSNum.ge (.fin p) (60/100) then "2 days"
       else if JSNum.ge (.fin p) (40/100) then "3 days"
       else "-- days") := by
    rcases hdl with h | h <;> simp [daysDisplay, h, hp]
  refine ⟨fun h => ?_, fun h => ?_, fun h => ?_, fun h => ?_, fun h => ?_⟩
  · rw [hdt, h1]; simp [JSNum.ge, h]
  · rw [hdt, h1]
    simp [JSNum.ge, h.1, not_le.mpr h.2]
  · rw [hdt, h1]
    simp [JSNum.ge, h.1, not_le.mpr h.2,
      not_le.mpr (lt_trans h.2 (by norm_num : (75:ℚ)/100 < 95/100))]
  · rw [hdt, h1]
    simp [JSNum.ge, h.1, not_le.mpr h.2,
      not_le.mpr (lt_trans h.2 (by norm_num : (60:ℚ)/100 < 75/100)),
      not_le.mpr (lt_trans h.2 (by norm_num : (60:ℚ)/100 < 95/100))]
  · rw [hdt, h1]
    simp [JSNum.ge, not_le.mpr h,
      not_le.mpr (lt_trans h (by norm_num : (40:ℚ)/100 < 60/100)),
      not_le.mpr (lt_trans h (by norm_num : (40:ℚ)/100 < 75/100)),
      not_le.mpr (lt_trans h (by norm_num : (40:ℚ)/100 < 95/100))]

/-- Witness for C1 at probability 0.8, `days_left` absent: shows
`1 day`. -/
theorem band_inference_when_days_absent_witness :
    (updateUI fmtMs true (some probeBand) dom0).daysText = "1 day" :=
  (band_inference_when_days_absent fmtMs true dom0 probeBand (4/5)
    (Or.inl rfl) rfl).2.1 ⟨by norm_num, by norm_num⟩

/-- C2: a non-null, defined server `days_left` is displayed as-is (its
stringification followed by ` days`), with no probability-band inference —
the probability field of `d` is arbitrary here. -/
theorem server_days_left_wins (fmt : Int → String) (rv : Bool) (dom : Dom)
    (d : RespData) (s : String) (h : d.days_left = .dval s) :
    (updateUI fmt rv (some d) dom).daysText = s ++ " days" := by
  show daysDisplay d = _
  simp [daysDisplay, h]

/-- Witness for C2: server `days_left = 4` overrides the band of
probability 0.2 (which alone would give the placeholder). -/
theorem server_days_left_wins_witness :
    (updateUI fmtMs true (some probeServerDays) dom0).daysText =
      "4 days" :=
  server_days_left_wins fmtMs true dom0 probeServerDays "4" rfl

/-- C5: whatever the response (and however long its history array), the
rendered readings list has at most 12 entries. -/
theorem readings_list_capped (fmt : Int → String) (rv : Bool)
    (d : Option RespData) (dom : Dom) :
    (updateUI fmt rv d dom).readingsList.length ≤ 12 := by
  cases d with
  | none => simp [updateUI, showWaiting]
  | some data =>
    show (renderList fmt data.history).length ≤ 12
    simp only [renderList]
    split
    · simp
    · rw [List.length_map, List.length_take]
      exact min_le_left _ _

/-- C8: reads are idempotent and rendering is deterministic: `getLatest`
does not change the server state and returns the same snapshot when
called twice, and applying `updateUI` to the same data twice leaves the
display exactly as after the first application. -/
theorem read_and_render_idempotent (s : ServerState) (fmt : Int → String)
    (rv : Bool) (d : Option RespData) (dom : Dom) :
    (getLatest s).2 = s ∧
    (getLatest (getLatest s).2).1 = (getLatest s).1 ∧
    updateUI fmt rv d (updateUI fmt rv d dom) = updateUI fmt rv d dom := by
  refine ⟨rfl, rfl, ?_⟩
  cases d <;> rfl

/-- C9: `showError` writes the message into the status text and leaves
every other rendered field (probability text, days text, progress ring,
readings list, container visibility) unchanged. -/
theorem showError_frame (msg : String) (dom : Dom) :
    (showError msg dom).statusText = msg ∧
    (showError msg dom).probText = dom.probText ∧
    (showError msg dom).daysText = dom.daysText ∧
    (showError msg dom).ringDeg = dom.ringDeg ∧
    (showError msg dom).readingsList = dom.readingsList ∧
    (showError msg dom).containerVisible = dom.containerVisible :=
  ⟨rfl, rfl, rfl, rfl, rfl, rfl⟩

/-- The 0.8 reading of spec scenario 5 (the more recent one). -/
def recent08 : HistEntry := { timestamp := .parsed 2000, resistance := some "0.8" }

/-- The 0.3 reading of spec scenario 5 (the older one). -/
def older03 : HistEntry := { timestamp := .parsed 1000, resistance := some "0.3" }

/-- A snapshot body whose `history` is ordered most-recent-first
(the 0.8 reading first, 0.3 second, as scenario 5 publishes it). -/
def dataMRF : RespData :=
  { probability := .pval (.fin (4/5)), status := some "Approaching"
    days_left := .dnull, history := some [recent08, older03] }

/-- Counterexample to C3: on a most-recent-first history the client does
not keep that order — it reverses it, so the first displayed item is the
rendering of the *older* 0.3 reading, not of the most recent 0.8 one. -/
theorem readings_order_cex :
    (updateUI fmtMs true (some dataMRF) dom0).readingsList =
      [renderItem fmtMs older03, renderItem fmtMs recent08] ∧
    (updateUI fmtMs true (some dataMRF) dom0).readingsList.head? ≠
      some (renderItem fmtMs recent08) := by
  refine ⟨rfl, ?_⟩
  intro h
  rw [show (updateUI fmtMs true (some dataMRF) dom0).readingsList =
      [renderItem fmtMs older03, renderItem fmtMs recent08] from rfl] at h
  simp only [List.head?_cons, Option.some.injEq] at h
  exact absurd h (by decide)

/-- C3 (amended): the rendered list is the reverse of the history field
(last 12 entries); in particular, for a most-recent-first history of at
most 12 entries, the most recent reading appears *last* in the displayed
list, not first. -/
theorem readings_order_reversed (fmt : Int → String) (rv : Bool)
    (dom : Dom) (d : RespData) (h : HistEntry) (hs : List HistEntry)
    (hh : d.history = some (h :: hs)) (hlen : hs.length ≤ 11) :
    (updateUI fmt rv (some d) dom).readingsList =
      ((h :: hs).reverse.take 12).map (renderItem fmt) ∧
    (updateUI fmt rv (some d) dom).readingsList.getLast? =
      some (renderItem fmt h) := by
  have hl : (updateUI fmt rv (some d) dom).readingsList =
      renderList fmt d.history := rfl
  rw [hl, hh]
  have hne : ¬ ((h :: hs).reverse.isEmpty = true) := by
    simp [List.isEmpty_iff]
  have hr : renderList fmt (some (h :: hs)) =
      ((h :: hs).reverse.take 12).map (renderItem fmt) := by
    simp only [renderList, Option.getD_some]
    rw [if_neg hne]
  refine ⟨hr, ?_⟩
  rw [hr]
  have htake : (h :: hs).reverse.take 12 = (h :: hs).reverse := by
    apply List.take_of_length_le
    simp
    omega
  rw [htake, List.reverse_cons, List.map_append]
  simp

/-- Witness for C3 (amended) at the scenario-5 history: the most recent
0.8 reading is displayed last. -/
theorem readings_order_reversed_witness :
    (updateUI fmtMs true (some dataMRF) dom0).readingsList =
      (([recent08, older03] : List HistEntry).reverse.take 12).map
        (renderItem fmtMs) ∧
    (updateUI fmtMs true (some dataMRF) dom0).readingsList.getLast? =
      some (renderItem fmtMs recent08) :=
  readings_order_reversed fmtMs true dom0 dataMRF recent08 [older03]
    rfl (by decide)

/-- C4: a 204 / empty-body result renders the waiting state — `--%`,
`Waiting for sensor...`, `-- days`, the `No readings yet` item — and is
never an error display: its status text differs from every error message,
and the error display arises exactly from non-OK statuses and thrown
fetches. -/
theorem noContent_renders_waiting (fmt : Int → String) (rv : Bool)
    (st : ClientState) :
    (fetchLatest fmt rv .noContent st).dom = showWaiting st.dom ∧
    (fetchLatest fmt rv .noContent st).dom.probText = "--%" ∧
    (fetchLatest fmt rv .noContent st).dom.statusText =
      "Waiting for sensor..." ∧
    (fetchLatest fmt rv .noContent st).dom.daysText = "-- days" ∧
    (fetchLatest fmt rv .noContent st).dom.readingsList =
      [noReadingsItem] ∧
    ("Waiting for sensor..." ≠ "Server unreachable" ∧
      ∀ c : Nat, "Waiting for sensor..." ≠ "Server " ++ toString c) ∧
    (∀ (c : Nat) (st₂ : ClientState),
      (fetchLatest fmt rv (.httpError c) st₂).dom =
        showError ("Server " ++ toString c) st₂.dom) ∧
    (∀ st₂ : ClientState,
      (fetchLatest fmt rv .netFail st₂).dom =
        showError "Server unreachable" st₂.dom) := by
  refine ⟨rfl, rfl, rfl, rfl, rfl, ⟨by decide, fun c h => ?_⟩,
    fun c st₂ => rfl, fun st₂ => rfl⟩
  have hW : ("Waiting for sensor..." : String).data.head? = some 'W' := rfl
  rw [h, String.data_append] at hW
  have hS : (("Server " : String).data ++ (toString c).data).head? =
      some 'S' := rfl
  rw [hS] at hW
  exact absurd hW (by decide)

/-- The inference function used by the C6 witness run (the scoring
function is an external black box; this one scores every resistance as
0.8). -/
def inferW : ℚ → ℚ := fun _ => 4/5

/-- The operation sequence of the C6 witness run: one ingestion of
resistance 800, then one query. -/
def opsW : List ServerOp := [.ingest 800 1, .query]

/-- The snapshot the C6 witness run publishes. -/
def snapW : Snapshot :=
  { probability := 4/5, status := "Approaching", days_left := some 1
    history := [{ resistance := 800, timestamp := 1, probability := 4/5
                  status := "Approaching", days_left := some 1 }] }

/-- C6: under any interleaving of atomic ingestions and queries, a query
never observes a torn snapshot — whatever snapshot it returns, the head of
that snapshot's own history is a ClassifiedReading whose probability,
status and days-left agree with the snapshot's scalar fields. -/
theorem query_never_torn (infer : ℚ → ℚ) (ops : List ServerOp)
    (snap : Snapshot)
    (h : (getLatest (runOps infer ops initServer)).1 = some snap) :
    ∃ cr, snap.history.head? = some cr ∧
      cr.probability = snap.probability ∧
      cr.status = snap.status ∧
      cr.days_left = snap.days_left :=
  runOps_preserves_inv infer ops initServer
    (fun _ h0 => Option.noConfusion h0) snap h

/-- Witness for C6: the two-step run `ingest 800; query` returns the
concrete snapshot `snapW`, which is self-consistent. -/
theorem query_never_torn_witness :
    ∃ cr, snapW.history.head? = some cr ∧
      cr.probability = snapW.probability ∧
      cr.status = snapW.status ∧
      cr.days_left = snapW.days_left :=
  query_never_torn inferW opsW snapW (by
    show (ingest inferW 800 1 initServer).current = some snapW
    have hc : classify ((4:ℚ)/5) = ("Approaching", some 1) := by
      norm_num [classify]
    simp [ingest, initServer, inferW, hc, build, N_MAX, N_VISIBLE,
      snapW, List.take_of_length_le])

/-- C7: a failed fetch (non-OK status or a thrown network/parse error)
leaves `lastData` untouched, and the next successful poll produces exactly
the state it would have produced without the intervening failure. -/
theorem errors_contained (fmt : Int → String) (rv : Bool)
    (o : FetchOutcome) (st : ClientState)
    (h : (∃ c, o = .httpError c) ∨ o = .netFail) :
    (fetchLatest fmt rv o st).lastData = st.lastData ∧
    ∀ d, fetchLatest fmt rv (.success d) (fetchLatest fmt rv o st) =
      fetchLatest fmt rv (.success d) st := by
  obtain ⟨c, rfl⟩ | rfl := h
  · exact ⟨rfl, fun d => by cases d <;> rfl⟩
  · exact ⟨rfl, fun d => by cases d <;> rfl⟩

/-- Witness for C7 at a thrown fetch against the initial client state. -/
theorem errors_contained_witness :
    (fetchLatest fmtMs true .netFail state0).lastData = state0.lastData ∧
    ∀ d, fetchLatest fmtMs true (.success d)
        (fetchLatest fmtMs true .netFail state0) =
      fetchLatest fmtMs true (.success d) state0 :=
  errors_contained fmtMs true .netFail state0 (Or.inr rfl)

/-- A history entry whose `timestamp` field is missing (undefined). -/
def entryNoTime : HistEntry := { timestamp := .undef, resistance := some "812" }

/-- A response containing only `entryNoTime`. -/
def dataNoTime : RespData :=
  { probability := .pnull, status := none, days_left := .dnull
    history := some [entryNoTime] }

/-- Counterexample to C10: a history entry with a missing timestamp is
rendered with the time text `Invalid Date`, not the `--` placeholder
(`new Date(undefined).toLocaleString()` is `"Invalid Date"` and does not
throw, so the `catch` fallback producing `--` is unreachable). -/
theorem missing_timestamp_cex :
    (updateUI fmtMs true (some dataNoTime) dom0).readingsList =
      [{ time := "Invalid Date", value := some "812" }] ∧
    ("Invalid Date" : String) ≠ "--" :=
  ⟨rfl, by decide⟩

/-- C10 (amended): `updateUI` is total on arbitrary object data (it is a
total function here by construction); a missing, null, or non-numeric
probability renders `--%`, and then the days text keeps its placeholder
unless a server `days_left` is provided; a history entry with missing
resistance renders the `--` placeholder, while a missing or unparseable
timestamp renders `Invalid Date` rather than `--`. -/
theorem updateUI_total_placeholders (fmt : Int → String) (rv : Bool)
    (d : RespData) (dom : Dom)
    (hp : rawProb d.probability = none) :
    (updateUI fmt rv (some d) dom).probText = "--%" ∧
    ((d.days_left = .absent ∨ d.days_left = .dnull) →
      (updateUI fmt rv (some d) dom).daysText = "-- days") ∧
    (∀ e : HistEntry, e.resistance = none →
      (renderItem fmt e).value = some "--") ∧
    (∀ e : HistEntry,
      (e.timestamp = .undef ∨ e.timestamp = .unparseable) →
      (renderItem fmt e).time = "Invalid Date") := by
  refine ⟨?_, ?_, ?_, ?_⟩
  · show (match (rawProb d.probability).map percentOf with
      | none => "--%" | some n => showPercent n) = "--%"
    rw [hp]
    rfl
  · intro hdl
    show daysDisplay d = _
    rcases hdl with h | h <;> simp [daysDisplay, h, hp]
  · intro e he
    simp [renderItem, he]
  · intro e he
    rcases he with h | h <;> simp [renderItem, renderTime, h]

/-- A response whose probability field coerces to NaN (non-numeric) and
whose `days_left` is absent. -/
def dataBadProb : RespData :=
  { probability := .pval .nan, status := none, days_left := .absent
    history := none }

/-- Witness for C10 (amended) at a NaN-coercing probability with absent
`days_left`. -/
theorem updateUI_total_placeholders_witness :
    (updateUI fmtMs true (some dataBadProb) dom0).probText = "--%" ∧
    ((dataBadProb.days_left = .absent ∨ dataBadProb.days_left = .dnull) →
      (updateUI fmtMs true (some dataBadProb) dom0).daysText =
        "-- days") ∧
    (∀ e : HistEntry, e.resistance = none →
      (renderItem fmtMs e).value = some "--") ∧
    (∀ e : HistEntry,
      (e.timestamp = .undef ∨ e.timestamp = .unparseable) →
      (renderItem fmtMs e).time = "Invalid Date") :=
  updateUI_total_placeholders fmtMs true dataBadProb dom0 rfl

end Sensecomfort
